import Mathlib

/-!
Verification of the corporate/low-side DMZ message-exchange service.

This file is a shallow embedding, in Lean 4, of the core components of the
`corporateApi` repository: the project whitelist (`corporate/app/whitelist.py`),
the durable file store (`corporate/app/file_store.py`,
`low_side/app/file_store.py`), the gateway client retry loop
(`corporate/app/gateway_client.py`), the schema validators
(`corporate/app/models.py`), and the two HTTP pipeline handlers
(`corporate/app/main.py`).  Python dictionaries are modelled as association
lists, the filesystem as a finite map from paths to file contents, Python
object aliasing (where it matters) as an explicit heap, and each fallible
operation returns `Except`/`Option`.

The file is organised as definitions first, then the theorems settling the
claims about the specification.
-/

namespace CorporateApi

/-! ## Whitelist data model (`corporate/app/whitelist.py`)

A whitelist file entry is the JSON object stored under a project code, e.g.
`{"enabled": true}`.  A hand-edited file can omit the `"enabled"` key, so the
entry is modelled as an optional boolean: `none` means the key is absent.
Python's `project.get("enabled", False)` is `enabledKey.getD false`. -/
structure ProjEntry where
  enabledKey : Option Bool
deriving DecidableEq, Repr

/-- The in-memory `projects` dictionary: project code → entry.
Python `dict` keys are unique; lookup is by first occurrence. -/
abbrev Projects := List (String × ProjEntry)

/-- `ProjectWhitelist.is_project_allowed` (whitelist.py lines 133–153), as a
pure function of the projects map returned by `_get_projects`:
`projects.get(project_code)`; `None` → `False`; otherwise
`project.get("enabled", False)`. -/
def is_project_allowed (projects : Projects) (project_code : String) : Bool :=
  match projects.lookup project_code with
  | none => false
  | some project => project.enabledKey.getD false

/-- `ProjectWhitelist.list_projects` (whitelist.py lines 235–246):
`sorted([(code, proj.get("enabled", False)) for code, proj in projects.items()])`.
Python sorts pairs lexicographically with `False < True`. -/
def pairLE (a b : String × Bool) : Bool :=
  decide (a.1 < b.1) || (a.1 == b.1 && (!a.2 || b.2))

def list_projects (projects : Projects) : List (String × Bool) :=
  (projects.map (fun p => (p.1, p.2.enabledKey.getD false))).mergeSort pairLE

/-! ## Filesystem model

The durable store manipulates the filesystem only through regular files:
write a temp file, fsync it, rename it, unlink it.  The filesystem is
modelled as a finite map from paths (lists of components) to file contents;
directories are implicit (`mkdir(parents=True, exist_ok=True)` never fails on
the success paths modelled here). -/
abbrev Path := List String
abbrev FS := List (Path × String)

def lookupFS : FS → Path → Option String
  | [], _ => none
  | (q, c) :: fs, p => if q = p then some c else lookupFS fs p

/-- Remove the file at `p` (no-op when absent). -/
def eraseFS : FS → Path → FS
  | [], _ => []
  | (q, c) :: fs, p => if q = p then eraseFS fs p else (q, c) :: eraseFS fs p

/-- Create or overwrite the file at `p`. -/
def insertFS (fs : FS) (p : Path) (c : String) : FS := (p, c) :: eraseFS fs p

/-! ## Message data

`corporate/app/models.py` `Message` after validation (`model_dump()` produces
a dict with keys ID, Project, test_id, Timestamp, test_status, Data);
the low-side message carries a `Date` field instead of `Timestamp`
(its `FileStore.write_message` reads `message_data["ID"]` and
`message_data["Date"]`). -/
structure Message where
  ID : String
  Project : String
  test_id : String
  Timestamp : String
  test_status : String
  Data : List (String × String)
deriving DecidableEq, Repr

structure LowMessage where
  ID : String
  Date : String
  body : List (String × String)
deriving DecidableEq, Repr

/-- Model of `json.dump(message_data, f, ...)`: a deterministic rendering of
the message dict.  Only determinism matters to the claims; the exact JSON
text does not. -/
def serializeMessage (m : Message) : String :=
  "\x7bID:" ++ m.ID ++ ",Project:" ++ m.Project ++ ",Test ID:" ++ m.test_id ++
    ",Timestamp:" ++ m.Timestamp ++ ",Test Status:" ++ m.test_status ++
    ",Data:" ++ String.intercalate "," (m.Data.map (fun kv => kv.1 ++ "=" ++ kv.2)) ++ "\x7d"

def serializeLowMessage (m : LowMessage) : String :=
  "\x7bID:" ++ m.ID ++ ",Date:" ++ m.Date ++ ",Body:" ++
    String.intercalate "," (m.body.map (fun kv => kv.1 ++ "=" ++ kv.2)) ++ "\x7d"

/-- Python slice `s[a:b]` on a string. -/
def pySlice (s : String) (a b : Nat) : String :=
  String.mk ((s.toList.drop a).take (b - a))

/-- `parse_date_components` (`corporate/app/utils.py` lines 67–81, imported as
`.utils` by `low_side/app/file_store.py`): `day = s[0:2]; month = s[2:4];
year = s[4:8]`, returned as `(year, month, day)`. -/
def parse_date_components (date_str : String) : String × String × String :=
  let day := pySlice date_str 0 2
  let month := pySlice date_str 2 4
  let year := pySlice date_str 4 8
  (year, month, day)

/-! ## Durable store (`corporate/app/file_store.py`, `low_side/app/file_store.py`) -/

/-- Corporate `FileStore`: `master_dir` and `tmp_dir` directories. -/
structure FileStore where
  master_dir : Path
  tmp_dir : Path
deriving DecidableEq, Repr

/-- `FileStore._get_tmp_path`: `{tmp_dir}/{message_id}.json.tmp`. -/
def FileStore.get_tmp_path (s : FileStore) (message_id : String) : Path :=
  s.tmp_dir ++ [message_id ++ ".json.tmp"]

/-- `FileStore._get_final_path` (file_store.py lines 76–88):
`{master_dir}/{Project}/{message_id}.json`. -/
def FileStore.get_final_path (s : FileStore) (message_id project : String) : Path :=
  s.master_dir ++ [project, message_id ++ ".json"]

/-- Low-side `FileStore`: a single `data_dir` with `tmp/` and `incoming/`. -/
structure LowFileStore where
  data_dir : Path
deriving DecidableEq, Repr

def LowFileStore.tmp_dir (s : LowFileStore) : Path := s.data_dir ++ ["tmp"]

def LowFileStore.incoming_dir (s : LowFileStore) : Path := s.data_dir ++ ["incoming"]

def LowFileStore.get_tmp_path (s : LowFileStore) (message_id : String) : Path :=
  s.tmp_dir ++ [message_id ++ ".json.tmp"]

/-- Low-side `FileStore._get_final_path` (low_side file_store.py lines 48–60):
`{incoming_dir}/{year}/{month}/{day}/{message_id}.json` with the components
sliced from the literal date string. -/
def LowFileStore.get_final_path (s : LowFileStore) (message_id date_str : String) : Path :=
  let (year, month, day) := parse_date_components date_str
  s.incoming_dir ++ [year, month, day, message_id ++ ".json"]

/-- Which step of the atomic-write protocol fails, if any.  `openFail` is a
step-(1) failure before the temp file is created; `writeFail` a step-(1)
failure after some content `written` reached the temp file; `fsyncFail`
and `renameFail` are step-(2) and step-(3) failures. -/
inductive WriteFault
  | noFault | openFail | writeFail | fsyncFail | renameFail
deriving DecidableEq, Repr

/-- Python exception classes crossing the store boundary: `FileStoreError`
(raised by `write_message`) versus the underlying `OSError` causes. -/
inductive StoreExc
  | fileStoreError (msg : String)
  | osError (msg : String)
deriving DecidableEq, Repr

def faultMsg : WriteFault → String
  | .noFault => ""
  | .openFail => "open failed"
  | .writeFail => "write failed"
  | .fsyncFail => "fsync failed"
  | .renameFail => "rename failed"

/-- The `except OSError` cleanup in `write_message`: `if tmp_path.exists():
try: tmp_path.unlink() except OSError: pass`. -/
def cleanupTmp (cleanupFails : Bool) (fs : FS) (tmp : Path) : FS :=
  if (lookupFS fs tmp).isSome then
    (if cleanupFails then fs else eraseFS fs tmp)
  else fs

/-- The body of `FileStore.write_message` common to both node variants
(corporate file_store.py lines 102–156; low_side lines 74–124): write the
serialized message to `tmp_path`, fsync, rename onto `final_path`; on any
failure delete the leftover temp file best-effort and raise an opaque
`FileStoreError` carrying only a message.  `fault` injects the failure,
`cleanupFails` makes the unlink itself fail, `written` is whatever partial
content a failed write left behind. -/
def atomic_write (fault : WriteFault) (cleanupFails : Bool) (written : String)
    (tmp_path final_path : Path) (content : String) (fs : FS) :
    Except StoreExc Path × FS :=
  match fault with
  | .noFault =>
      let fs1 := insertFS fs tmp_path content
      let fs2 := insertFS (eraseFS fs1 tmp_path) final_path content
      (.ok final_path, fs2)
  | .openFail =>
      (.error (.fileStoreError ("Failed to write message file: " ++ faultMsg .openFail)),
       cleanupTmp cleanupFails fs tmp_path)
  | .writeFail =>
      let fs1 := insertFS fs tmp_path written
      (.error (.fileStoreError ("Failed to write message file: " ++ faultMsg .writeFail)),
       cleanupTmp cleanupFails fs1 tmp_path)
  | .fsyncFail =>
      let fs1 := insertFS fs tmp_path content
      (.error (.fileStoreError ("Failed to write message file: " ++ faultMsg .fsyncFail)),
       cleanupTmp cleanupFails fs1 tmp_path)
  | .renameFail =>
      let fs1 := insertFS fs tmp_path content
      (.error (.fileStoreError ("Failed to write message file: " ++ faultMsg .renameFail)),
       cleanupTmp cleanupFails fs1 tmp_path)

/-- Corporate `FileStore.write_message`. -/
def FileStore.write_message (s : FileStore) (fault : WriteFault)
    (cleanupFails : Bool) (written : String) (m : Message) (fs : FS) :
    Except StoreExc Path × FS :=
  atomic_write fault cleanupFails written (s.get_tmp_path m.ID)
    (s.get_final_path m.ID m.Project) (serializeMessage m) fs

/-- Low-side `FileStore.write_message`. -/
def LowFileStore.write_message (s : LowFileStore) (fault : WriteFault)
    (cleanupFails : Bool) (written : String) (m : LowMessage) (fs : FS) :
    Except StoreExc Path × FS :=
  atomic_write fault cleanupFails written (s.get_tmp_path m.ID)
    (s.get_final_path m.ID m.Date) (serializeLowMessage m) fs

/-! ## Schema validator (`corporate/app/models.py`)

The field validators of the pydantic `Message` model.  `uuid.UUID` and
`datetime.fromisoformat` are CPython standard-library functions; they are
modelled here from their documented behaviour, on the fragment the validators
exercise. -/

def is_hex_digit (c : Char) : Bool :=
  c.isDigit || ('a' ≤ c && c ≤ 'f') || ('A' ≤ c && c ≤ 'F')

/-- Model of `uuid.UUID(v)` acceptance (models.py `validate_uuid`), restricted
to the canonical and brace/urn-prefixed spellings: strip an optional
`urn:uuid:` prefix and surrounding braces, drop hyphens, then require exactly
32 hexadecimal digits.  (CPython also strips `urn:`/`uuid:` occurring
anywhere in the string; no claim depends on that difference.) -/
def validate_uuid (v : String) : Bool :=
  let cs := v.toList
  let cs := if "urn:uuid:".toList.isPrefixOf cs then cs.drop 9 else cs
  let cs := cs.dropWhile (fun c => c == '{' || c == '}')
  let cs := (cs.reverse.dropWhile (fun c => c == '{' || c == '}')).reverse
  let hex := cs.filter (fun c => !(c == '-'))
  hex.length == 32 && hex.all is_hex_digit

def is_upper_alnum (c : Char) : Bool := ('A' ≤ c && c ≤ 'Z') || c.isDigit

/-- `validate_project` (models.py lines 40–45): `re.match(r"^[A-Z0-9]{3}$", v)`. -/
def validate_project (v : String) : Bool :=
  v.length == 3 && v.toList.all is_upper_alnum

/-- `validate_test_id` (models.py lines 47–52): `3 <= len(v) <= 10`. -/
def validate_test_id (v : String) : Bool :=
  3 ≤ v.length && v.length ≤ 10

def digitVal (c : Char) : Nat := c.toNat - '0'.toNat

def nat2 (a b : Char) : Nat := digitVal a * 10 + digitVal b

def nat4 (a b c d : Char) : Nat :=
  digitVal a * 1000 + digitVal b * 100 + digitVal c * 10 + digitVal d

def isLeap (y : Nat) : Bool := (y % 4 == 0 && y % 100 != 0) || y % 400 == 0

def daysInMonth (y m : Nat) : Nat :=
  if m == 2 then (if isLeap y then 29 else 28)
  else if m == 4 || m == 6 || m == 9 || m == 11 then 30
  else 31

def validDate (y m d : Nat) : Bool :=
  (1 ≤ y && y ≤ 9999) && (1 ≤ m && m ≤ 12) && (1 ≤ d && d ≤ daysInMonth y m)

def validTime (h mi s : Nat) : Bool := h ≤ 23 && mi ≤ 59 && s ≤ 59

/-- Model of CPython `_parse_isoformat_date` on the first ten characters:
four year digits, `-`, two month digits, `-`, two day digits.  The separator
positions are checked first, mirroring the parser's rejection of anything not
shaped `YYYY-MM-DD`. -/
def parse_isoformat_date : List Char → Option (Nat × Nat × Nat)
  | [y1, y2, y3, y4, sep1, m1, m2, sep2, d1, d2] =>
      if (sep1 == '-') && (sep2 == '-') &&
          [y1, y2, y3, y4, m1, m2, d1, d2].all Char.isDigit then
        some (nat4 y1 y2 y3 y4, nat2 m1 m2, nat2 d1 d2)
      else none
  | _ => none

/-- Model of CPython `_parse_hh_mm_ss_ff` for naive times:
`HH`, `HH:MM`, `HH:MM:SS`, or `HH:MM:SS.` followed by 3 or 6 fractional
digits.  (Timezone offsets are omitted; no claim depends on them.) -/
def parse_isoformat_time : List Char → Option (Nat × Nat × Nat)
  | [h1, h2] =>
      if [h1, h2].all Char.isDigit then some (nat2 h1 h2, 0, 0) else none
  | [h1, h2, ':', m1, m2] =>
      if [h1, h2, m1, m2].all Char.isDigit then
        some (nat2 h1 h2, nat2 m1 m2, 0)
      else none
  | [h1, h2, ':', m1, m2, ':', s1, s2] =>
      if [h1, h2, m1, m2, s1, s2].all Char.isDigit then
        some (nat2 h1 h2, nat2 m1 m2, nat2 s1 s2)
      else none
  | h1 :: h2 :: ':' :: m1 :: m2 :: ':' :: s1 :: s2 :: '.' :: frac =>
      if [h1, h2, m1, m2, s1, s2].all Char.isDigit &&
          (frac.length == 3 || frac.length == 6) && frac.all Char.isDigit then
        some (nat2 h1 h2, nat2 m1 m2, nat2 s1 s2)
      else none
  | _ => none

/-- Model of CPython ≤3.10 `datetime.fromisoformat` (naive fragment): the
first ten characters must parse as a `YYYY-MM-DD` calendar date; a longer
string has an arbitrary single separator character at index 10 and a time
part from index 11 on; all components must be in range. -/
def fromisoformat_ok (s : String) : Bool :=
  let cs := s.toList
  match parse_isoformat_date (cs.take 10) with
  | none => false
  | some (y, m, d) =>
      if validDate y m d then
        if cs.length ≤ 10 then true
        else
          match parse_isoformat_time (cs.drop 11) with
          | none => false
          | some (hh, mi, ss) => validTime hh mi ss
      else false

/-- `validate_timestamp` (models.py lines 54–61): `datetime.fromisoformat(v)`,
returning `v` unchanged on success and rejecting otherwise. -/
def validate_timestamp (v : String) : Option String :=
  if fromisoformat_ok v then some v else none

/-- `validate_data` (models.py lines 63–80): at most 20 entries, every value a
string of 1–128 characters drawn from `[a-zA-Z0-9 ;]`. -/
def data_value_ok (v : String) : Bool :=
  (1 ≤ v.length && v.length ≤ 128) &&
    v.toList.all (fun c => c.isAlphanum || c == ' ' || c == ';')

def validate_data (d : List (String × String)) : Bool :=
  d.length ≤ 20 && d.all (fun kv => data_value_ok kv.2)

/-- The raw payload of a request body, with the closed set of top-level
fields of the corporate schema. -/
structure RawMessage where
  ID : String
  Project : String
  test_id : String
  Timestamp : String
  test_status : String
  Data : List (String × String)
deriving DecidableEq, Repr

/-- `Message(**message)`: run every field validator; produce the validated
message or reject. -/
def Message.validate (r : RawMessage) : Option Message :=
  if validate_uuid r.ID && validate_project r.Project &&
      validate_test_id r.test_id && fromisoformat_ok r.Timestamp &&
      validate_data r.Data then
    some ⟨r.ID, r.Project, r.test_id, r.Timestamp, r.test_status, r.Data⟩
  else none

/-- Formalisation of the spec's "expected literal format exactly" for the
corporate node: precisely `YYYY-MM-DDThh:mm:ss` with in-range calendar date
and time-of-day.  (Spec-side definition, for comparison with the code.) -/
def exact_iso_datetime_format (s : String) : Bool :=
  match s.toList with
  | [y1, y2, y3, y4, '-', m1, m2, '-', d1, d2, 'T', h1, h2, ':', n1, n2, ':', s1, s2] =>
      [y1, y2, y3, y4, m1, m2, d1, d2, h1, h2, n1, n2, s1, s2].all Char.isDigit &&
        validDate (nat4 y1 y2 y3 y4) (nat2 m1 m2) (nat2 d1 d2) &&
        validTime (nat2 h1 h2) (nat2 n1 n2) (nat2 s1 s2)
  | _ => false

/-! ## Gateway client (`corporate/app/gateway_client.py`)

The retry loop of `GatewayClient.send_message` (lines 70–161).  The network
is abstracted as a function from the attempt index to that attempt's outcome:
an HTTP response with a status code, a timeout, or a connection error.
Backoff delays are rational numbers of seconds. -/

def MAX_RETRIES : Nat := 2

def INITIAL_BACKOFF : ℚ := 1 / 2

inductive AttemptOutcome
  | resp (status : Nat)
  | timeout
  | connectError
deriving DecidableEq, Repr

/-- The externally observable resolution of `send_message`: a 2xx/3xx body
(`ok`), a `GatewayError` for a 4xx (`rejected`), or a
`GatewayUnavailableError` after exhaustion (`unavailable`). -/
inductive SendResult
  | ok
  | rejected (status : Nat)
  | unavailable
deriving DecidableEq, Repr

/-- One unrolling of `for attempt in range(MAX_RETRIES + 1)` starting at
`attempt`, with `fuel` iterations remaining.  Returns the result, the number
of attempts issued, and the list of backoff delays slept, in order:
a 5xx retries after `INITIAL_BACKOFF * 2 ** attempt` (or raises
`GatewayUnavailableError` on the final attempt), a 4xx raises immediately,
anything below 400 returns the body, and timeout/connection errors retry like
a 5xx. -/
def send_message_from (outcomes : Nat → AttemptOutcome) :
    Nat → Nat → SendResult × Nat × List ℚ
  | _, 0 => (.unavailable, 0, [])
  | attempt, fuel + 1 =>
    match outcomes attempt with
    | .resp s =>
      if 500 ≤ s then
        if attempt < MAX_RETRIES then
          ((send_message_from outcomes (attempt + 1) fuel).1,
           (send_message_from outcomes (attempt + 1) fuel).2.1 + 1,
           INITIAL_BACKOFF * 2 ^ attempt :: (send_message_from outcomes (attempt + 1) fuel).2.2)
        else (.unavailable, 1, [])
      else if 400 ≤ s then (.rejected s, 1, [])
      else (.ok, 1, [])
    | .timeout =>
      if attempt < MAX_RETRIES then
        ((send_message_from outcomes (attempt + 1) fuel).1,
         (send_message_from outcomes (attempt + 1) fuel).2.1 + 1,
         INITIAL_BACKOFF * 2 ^ attempt :: (send_message_from outcomes (attempt + 1) fuel).2.2)
      else (.unavailable, 1, [])
    | .connectError =>
      if attempt < MAX_RETRIES then
        ((send_message_from outcomes (attempt + 1) fuel).1,
         (send_message_from outcomes (attempt + 1) fuel).2.1 + 1,
         INITIAL_BACKOFF * 2 ^ attempt :: (send_message_from outcomes (attempt + 1) fuel).2.2)
      else (.unavailable, 1, [])

/-- `GatewayClient.send_message`: the full loop over attempts `0..MAX_RETRIES`. -/
def GatewayClient.send_message (outcomes : Nat → AttemptOutcome) :
    SendResult × Nat × List ℚ :=
  send_message_from outcomes 0 (MAX_RETRIES + 1)

/-! ## HTTP pipeline (`corporate/app/main.py`)

The two endpoint handlers, `send_message` (lines 209–258) and
`receive_message` (lines 293–343).  A response is modelled as the HTTP status
code together with the JSON body fields (`SuccessResponse`/`ErrorResponse`
from models.py; the status code is the one passed to `JSONResponse`).  The
downstream collaborators are abstracted by their outcome for this request:
the gateway call resolves to a `SendResult`, the store write to an
`Except StoreExc Path`.  Each handler also returns the trace of collaborator
invocations it performed, so "zero calls observed" is `= []`. -/

structure HttpResponse where
  status : Nat
  success : Bool
  request_id : String
  error : Option String
  message_id : Option String
deriving DecidableEq, Repr

/-- `ErrorResponse(request_id=rid)` serialized with the given status code:
`success=False`, `error="Invalid request"`. -/
def ErrorResponse (status : Nat) (request_id : String) : HttpResponse :=
  { status := status, success := false, request_id := request_id,
    error := some "Invalid request", message_id := none }

/-- `SuccessResponse(request_id=rid, message_id=mid)` with status 200. -/
def SuccessResponse (request_id message_id : String) : HttpResponse :=
  { status := 200, success := true, request_id := request_id,
    error := none, message_id := some message_id }

/-- Collaborator calls a handler can make. -/
inductive Effect
  | storeWrite
  | gatewaySend
deriving DecidableEq, Repr

/-- `verify_gateway_origin` (main.py lines 88–113): placeholder, always true. -/
def verify_gateway_origin : Bool := true

/-- `check_project_whitelist` (main.py lines 116–126). -/
def check_project_whitelist (wl : Projects) (project_code : String) : Bool :=
  is_project_allowed wl project_code

/-- `POST /messages` (`send_message`): validate the schema, check the
whitelist, forward to the gateway.  Schema or whitelist failure → 400 with no
collaborator call; `GatewayUnavailableError` → 503; `GatewayError` → 400. -/
def send_message_endpoint (wl : Projects) (request_id : String)
    (raw : RawMessage) (gw : SendResult) : HttpResponse × List Effect :=
  match Message.validate raw with
  | none => (ErrorResponse 400 request_id, [])
  | some m =>
    if check_project_whitelist wl m.Project then
      match gw with
      | .ok => (SuccessResponse request_id m.ID, [.gatewaySend])
      | .unavailable => (ErrorResponse 503 request_id, [.gatewaySend])
      | .rejected _ => (ErrorResponse 400 request_id, [.gatewaySend])
    else (ErrorResponse 400 request_id, [])

/-- `POST /dmz/messages` (`receive_message`): origin check (placeholder),
schema validation, whitelist check, atomic disk write.  Schema or whitelist
failure → 400 with no collaborator call; `FileStoreError` → 500. -/
def receive_message_endpoint (wl : Projects) (request_id : String)
    (raw : RawMessage) (st : Except StoreExc Path) : HttpResponse × List Effect :=
  if verify_gateway_origin then
    match Message.validate raw with
    | none => (ErrorResponse 400 request_id, [])
    | some m =>
      if check_project_whitelist wl m.Project then
        match st with
        | .ok _ => (SuccessResponse request_id m.ID, [.storeWrite])
        | .error _ => (ErrorResponse 500 request_id, [.storeWrite])
      else (ErrorResponse 400 request_id, [])
  else (ErrorResponse 400 request_id, [])

/-! ## Whitelist state machine (`corporate/app/whitelist.py`)

The mutating operations share entry objects between the cache and the copied
dict (`projects = self._get_projects().copy()` is a *shallow* copy), so
Python aliasing matters here.  It is modelled explicitly: entry objects live
on a heap addressed by `Nat` references; the in-memory cache and the copied
dict are maps from project code to reference.  The backing file stores
entries by value, together with its modification time. -/
structure WLState where
  heap : List (Nat × ProjEntry)
  cacheRefs : List (String × Nat)
  fileProjects : Projects
  fileMtime : Nat
  lastMtime : Nat
  nextRef : Nat
deriving DecidableEq, Repr

inductive WLErr
  | alreadyExists
  | writeFailed
deriving DecidableEq, Repr

/-- Allocate fresh heap cells for the entries parsed from the file
(`_read_data` builds new dict objects). -/
def allocRefs : Nat → Projects → List (String × Nat) × List (Nat × ProjEntry)
  | _, [] => ([], [])
  | n, (c, e) :: ps =>
    ((c, n) :: (allocRefs (n + 1) ps).1, (n, e) :: (allocRefs (n + 1) ps).2)

/-- `_get_projects` (whitelist.py lines 107–124): compare the file's mtime to
the last-seen value; on mismatch re-parse the file into a fresh cache and
record the new mtime; otherwise serve the cache. -/
def get_projects (s : WLState) : WLState :=
  if s.fileMtime ≠ s.lastMtime then
    { s with
      cacheRefs := (allocRefs s.nextRef s.fileProjects).1,
      heap := (allocRefs s.nextRef s.fileProjects).2 ++ s.heap,
      lastMtime := s.fileMtime,
      nextRef := s.nextRef + s.fileProjects.length }
  else s

/-- Replace the entry object at reference `r` (in-place mutation of the dict
`projects[code]`). -/
def updateHeap : List (Nat × ProjEntry) → Nat → ProjEntry → List (Nat × ProjEntry)
  | [], _, _ => []
  | (k, v) :: t, r, e => (if k = r then (k, e) else (k, v)) :: updateHeap t r e

/-- Read the projects map through the references (what `json.dump` of
`{"projects": projects}` serializes). -/
def derefProjects (h : List (Nat × ProjEntry)) (refs : List (String × Nat)) :
    Projects :=
  refs.filterMap (fun cr => (h.lookup cr.2).map (fun e => (cr.1, e)))

/-- `_save_projects` (whitelist.py lines 126–131): `_write_data` serializes
the entire map to a temp file and atomically renames it over the destination
(`_write_data`, lines 93–105), then the cache and last-seen mtime are updated.
On a write failure the temp file is cleaned up, `WhitelistError` is raised,
and neither the file nor the cache nor the mtimes change. -/
def save_projects (writeFails : Bool) (s : WLState)
    (projRefs : List (String × Nat)) : Except WLErr Unit × WLState :=
  if writeFails then (.error .writeFailed, s)
  else
    (.ok (), { s with
      fileProjects := derefProjects s.heap projRefs,
      cacheRefs := projRefs,
      fileMtime := s.fileMtime + 1,
      lastMtime := s.fileMtime + 1 })

/-- Stateful `is_project_allowed`: read through `_get_projects`, then
dereference the entry. -/
def is_project_allowed_st (s0 : WLState) (code : String) : Bool × WLState :=
  let s := get_projects s0
  match s.cacheRefs.lookup code with
  | none => (false, s)
  | some r =>
    match s.heap.lookup r with
    | none => (false, s)
    | some project => (project.enabledKey.getD false, s)

/-- `add_project` (whitelist.py lines 155–173): shallow-copy the map, fail if
the code exists, bind the code to a *fresh* entry object, save. -/
def add_project_st (writeFails : Bool) (s0 : WLState) (code : String)
    (enabled : Bool) : Except WLErr Unit × WLState :=
  let s := get_projects s0
  match s.cacheRefs.lookup code with
  | some _ => (.error .alreadyExists, s)
  | none =>
    let s1 : WLState :=
      { s with heap := (s.nextRef, ⟨some enabled⟩) :: s.heap, nextRef := s.nextRef + 1 }
    match save_projects writeFails s1 (s1.cacheRefs ++ [(code, s1.nextRef - 1)]) with
    | (.ok _, s2) => (.ok (), s2)
    | (.error e, s2) => (.error e, s2)

/-- `enable_project` (whitelist.py lines 175–193): shallow-copy the map,
return `false` if the code is absent, otherwise mutate the *shared* entry
object in place (`projects[project_code]["enabled"] = True`) and save. -/
def enable_project_st (writeFails : Bool) (s0 : WLState) (code : String) :
    Except WLErr Bool × WLState :=
  let s := get_projects s0
  match s.cacheRefs.lookup code with
  | none => (.ok false, s)
  | some r =>
    let s1 : WLState := { s with heap := updateHeap s.heap r ⟨some true⟩ }
    match save_projects writeFails s1 s1.cacheRefs with
    | (.ok _, s2) => (.ok true, s2)
    | (.error e, s2) => (.error e, s2)

/-- `disable_project` (whitelist.py lines 195–213): like `enable_project`,
setting the shared entry's flag to `False`. -/
def disable_project_st (writeFails : Bool) (s0 : WLState) (code : String) :
    Except WLErr Bool × WLState :=
  let s := get_projects s0
  match s.cacheRefs.lookup code with
  | none => (.ok false, s)
  | some r =>
    let s1 : WLState := { s with heap := updateHeap s.heap r ⟨some false⟩ }
    match save_projects writeFails s1 s1.cacheRefs with
    | (.ok _, s2) => (.ok true, s2)
    | (.error e, s2) => (.error e, s2)

/-- `remove_project` (whitelist.py lines 215–233): shallow-copy the map,
return `false` if the code is absent, otherwise delete the key from the copy
and save. -/
def remove_project_st (writeFails : Bool) (s0 : WLState) (code : String) :
    Except WLErr Bool × WLState :=
  let s := get_projects s0
  match s.cacheRefs.lookup code with
  | none => (.ok false, s)
  | some _ =>
    match save_projects writeFails s (s.cacheRefs.filter (fun cr => !(cr.1 == code))) with
    | (.ok _, s2) => (.ok true, s2)
    | (.error e, s2) => (.error e, s2)

/-! ## Node startup (`corporate/app/main.py` `lifespan`, lines 42–61) -/

/-- The keyword parameters accepted by the corporate `FileStore.__init__`
(file_store.py line 36: `def __init__(self, master_dir=None, tmp_dir=None)`). -/
def FileStore.initKeywords : List String := ["master_dir", "tmp_dir"]

/-- The attributes defined on a `ProjectWhitelist` instance (whitelist.py):
instance fields set in `__init__` plus the methods of the class. -/
def ProjectWhitelist.attributeNames : List String :=
  ["file_path", "_lock", "_cache", "_last_mtime",
   "_init_file", "_read_data", "_write_data", "_get_projects", "_save_projects",
   "is_project_allowed", "add_project", "enable_project", "disable_project",
   "remove_project", "list_projects", "close"]

inductive PyExc
  | typeError (msg : String)
  | attributeError (msg : String)
deriving DecidableEq, Repr

/-- The startup half of `lifespan`: `FileStore(data_dir=DATA_DIR)` (line 49),
`GatewayClient()`, `ProjectWhitelist()`, then the log lines reading
`gateway_client.base_url` (defined) and `whitelist.db_path` (line 54).
Passing a keyword argument the callee does not accept raises `TypeError`;
reading an attribute the object does not define raises `AttributeError`. -/
def lifespan_startup : Except PyExc Unit :=
  if "data_dir" ∈ FileStore.initKeywords then
    if "db_path" ∈ ProjectWhitelist.attributeNames then .ok ()
    else .error (.attributeError "ProjectWhitelist object has no attribute db_path")
  else .error (.typeError "FileStore init got an unexpected keyword argument data_dir")

/-! # Theorems -/

/-- If an association-list lookup finds a value, the corresponding pair is a
member of the list. -/
theorem lookup_mem {α β : Type} [BEq α] [LawfulBEq α] {l : List (α × β)} {k : α}
    {v : β} (h : l.lookup k = some v) : (k, v) ∈ l := by
  induction l with
  | nil => simp [List.lookup] at h
  | cons hd tl ih =>
    rw [List.lookup] at h
    by_cases hk : (k == hd.1) = true
    · rw [hk] at h
      cases h
      have hk' : k = hd.1 := eq_of_beq hk
      rw [hk']
      simp
    · rw [Bool.not_eq_true] at hk
      rw [hk] at h
      exact List.mem_cons_of_mem _ (ih h)

theorem lookupFS_eraseFS (fs : FS) (p q : Path) :
    lookupFS (eraseFS fs p) q = if q = p then none else lookupFS fs q := by
  induction fs with
  | nil => simp [eraseFS, lookupFS, ite_self]
  | cons hd tl ih =>
    obtain ⟨a, c⟩ := hd
    rw [eraseFS]
    by_cases hap : a = p
    · by_cases hqp : q = p
      · rw [if_pos hap, ih, if_pos hqp, if_pos hqp]
      · rw [if_pos hap, ih, if_neg hqp, if_neg hqp, lookupFS,
          if_neg (fun h : a = q => hqp (h.symm.trans hap))]
    · rw [if_neg hap, lookupFS, lookupFS, ih]
      by_cases haq : a = q
      · have hqp : ¬ q = p := fun h => hap (haq.trans h)
        rw [if_pos haq, if_neg hqp, if_pos haq]
      · rw [if_neg haq, if_neg haq]

theorem lookupFS_insertFS (fs : FS) (p q : Path) (c : String) :
    lookupFS (insertFS fs p c) q = if q = p then some c else lookupFS fs q := by
  unfold insertFS
  rw [lookupFS]
  by_cases hq : q = p
  · rw [if_pos hq, if_pos hq.symm]
  · rw [if_neg hq, if_neg (fun h => hq h.symm), lookupFS_eraseFS, if_neg hq]

/-- Two paths whose last components differ are distinct. -/
theorem path_ne_of_last_ne (xs ys : List String) {a b : String} (h : a ≠ b) :
    xs ++ [a] ≠ ys ++ [b] := by
  intro he
  have hl := congrArg List.getLast? he
  rw [List.getLast?_concat, List.getLast?_concat] at hl
  exact h (Option.some.inj hl)

theorem json_tmp_ne_json (i : String) : i ++ ".json.tmp" ≠ i ++ ".json" := by
  intro h
  have h2 := congrArg String.length h
  rw [String.length_append, String.length_append] at h2
  have h3 : String.length ".json.tmp" = String.length ".json" := Nat.add_left_cancel h2
  revert h3
  decide

/-- C2: `is_project_allowed` returns `true` exactly when an entry for the code
exists and that entry's `enabled` value is `true`. -/
theorem C2_is_project_allowed_iff (projects : Projects) (p : String) :
    (is_project_allowed projects p = true ↔
      ∃ e, projects.lookup p = some e ∧ e.enabledKey = some true) ∧
    (projects.lookup p = none → is_project_allowed projects p = false) := by
  constructor
  · unfold is_project_allowed
    cases h : projects.lookup p with
    | none => simp
    | some e =>
      simp only [h, Option.some.injEq]
      constructor
      · intro hv
        refine ⟨e, rfl, ?_⟩
        cases he : e.enabledKey with
        | none => rw [he] at hv; simp [Option.getD] at hv
        | some b => rw [he] at hv; simp [Option.getD] at hv; simp [hv]
      · rintro ⟨e', he', hv⟩
        cases he' with
        | refl => simp [hv]
  · intro h
    unfold is_project_allowed
    rw [h]

/-- Witness for C2 on a concrete map: present+enabled is allowed, absent is
not. -/
theorem C2_is_project_allowed_iff_witness :
    is_project_allowed [("AAA", ⟨some true⟩)] "AAA" = true ∧
      is_project_allowed [("AAA", ⟨some true⟩)] "BBB" = false :=
  ⟨(C2_is_project_allowed_iff [("AAA", ⟨some true⟩)] "AAA").1.mpr
      ⟨⟨some true⟩, rfl, rfl⟩,
   (C2_is_project_allowed_iff [("AAA", ⟨some true⟩)] "BBB").2 rfl⟩

/-- C10: an entry present in the whitelist map but lacking the `"enabled"` key
is treated as disabled: `is_project_allowed` returns `false` and
`list_projects` reports the pair `(p, false)`. -/
theorem C10_missing_enabled_key_is_disabled (projects : Projects) (p : String)
    (h : projects.lookup p = some ⟨none⟩) :
    is_project_allowed projects p = false ∧ (p, false) ∈ list_projects projects := by
  constructor
  · unfold is_project_allowed
    rw [h]
    rfl
  · unfold list_projects
    rw [List.mem_mergeSort]
    exact List.mem_map_of_mem (fun q => (q.1, q.2.enabledKey.getD false)) (lookup_mem h)

/-- Witness for C10 at the concrete one-entry map `{"AAA": {}}`. -/
theorem C10_missing_enabled_key_is_disabled_witness :
    is_project_allowed [("AAA", ⟨none⟩)] "AAA" = false ∧
      ("AAA", false) ∈ list_projects [("AAA", ⟨none⟩)] :=
  C10_missing_enabled_key_is_disabled [("AAA", ⟨none⟩)] "AAA" (by rfl)

/-- The corporate temp path never collides with a destination path. -/
theorem corp_tmp_ne_final (s : FileStore) (i p : String) :
    s.get_tmp_path i ≠ s.get_final_path i p := by
  unfold FileStore.get_tmp_path FileStore.get_final_path
  have h : s.master_dir ++ [p, i ++ ".json"] =
      (s.master_dir ++ [p]) ++ [i ++ ".json"] := by simp
  rw [h]
  exact path_ne_of_last_ne _ _ (json_tmp_ne_json i)

/-- The low-side temp path never collides with a destination path. -/
theorem low_tmp_ne_final (s : LowFileStore) (i d : String) :
    s.get_tmp_path i ≠ s.get_final_path i d := by
  have h2 : s.get_final_path i d =
      (s.incoming_dir ++ [pySlice d 4 8, pySlice d 2 4, pySlice d 0 2]) ++
        [i ++ ".json"] := by
    simp [LowFileStore.get_final_path, parse_date_components]
  rw [h2]
  show s.tmp_dir ++ [i ++ ".json.tmp"] ≠ _
  exact path_ne_of_last_ne _ _ (json_tmp_ne_json i)

/-- Behaviour of a faulted `atomic_write` when the temp and destination paths
differ: the destination is untouched, the temp file is gone whenever the
best-effort unlink succeeds, and the surfaced error is the opaque
`FileStoreError` — independent of whether the cleanup itself failed. -/
theorem atomic_write_fault (fault : WriteFault) (cleanupFails : Bool)
    (written : String) (tmp fin : Path) (content : String) (fs : FS)
    (hfault : fault ≠ .noFault) (hne : tmp ≠ fin)
    (hfin : lookupFS fs fin = none) :
    (atomic_write fault cleanupFails written tmp fin content fs).1 =
      .error (.fileStoreError ("Failed to write message file: " ++ faultMsg fault)) ∧
    lookupFS (atomic_write fault cleanupFails written tmp fin content fs).2 fin = none ∧
    (cleanupFails = false →
      lookupFS (atomic_write fault cleanupFails written tmp fin content fs).2 tmp = none) := by
  have hfin' : ¬ fin = tmp := fun h => hne h.symm
  cases fault with
  | noFault => exact absurd rfl hfault
  | openFail =>
    refine ⟨rfl, ?_, ?_⟩
    · show lookupFS (cleanupTmp cleanupFails fs tmp) fin = none
      unfold cleanupTmp
      by_cases hsome : (lookupFS fs tmp).isSome
      · rw [if_pos hsome]
        cases cleanupFails
        · rw [if_neg Bool.false_ne_true, lookupFS_eraseFS, if_neg hfin']
          exact hfin
        · rw [if_pos rfl]
          exact hfin
      · rw [if_neg hsome]
        exact hfin
    · intro hcf
      show lookupFS (cleanupTmp cleanupFails fs tmp) tmp = none
      subst hcf
      unfold cleanupTmp
      by_cases hsome : (lookupFS fs tmp).isSome
      · rw [if_pos hsome, if_neg Bool.false_ne_true, lookupFS_eraseFS, if_pos rfl]
      · rw [if_neg hsome]
        cases h : lookupFS fs tmp with
        | none => rfl
        | some c => rw [h] at hsome; simp at hsome
  | writeFail =>
    refine ⟨rfl, ?_, ?_⟩
    · show lookupFS (cleanupTmp cleanupFails (insertFS fs tmp written) tmp) fin = none
      unfold cleanupTmp
      rw [lookupFS_insertFS, if_pos rfl]
      simp only [Option.isSome_some, if_pos]
      cases cleanupFails
      · rw [if_neg Bool.false_ne_true, lookupFS_eraseFS, if_neg hfin',
          lookupFS_insertFS, if_neg hfin']
        exact hfin
      · rw [if_pos rfl, lookupFS_insertFS, if_neg hfin']
        exact hfin
    · intro hcf
      subst hcf
      show lookupFS (cleanupTmp false (insertFS fs tmp written) tmp) tmp = none
      unfold cleanupTmp
      rw [lookupFS_insertFS, if_pos rfl]
      simp only [Option.isSome_some, if_pos]
      rw [if_neg Bool.false_ne_true, lookupFS_eraseFS, if_pos rfl]
  | fsyncFail =>
    refine ⟨rfl, ?_, ?_⟩
    · show lookupFS (cleanupTmp cleanupFails (insertFS fs tmp content) tmp) fin = none
      unfold cleanupTmp
      rw [lookupFS_insertFS, if_pos rfl]
      simp only [Option.isSome_some, if_pos]
      cases cleanupFails
      · rw [if_neg Bool.false_ne_true, lookupFS_eraseFS, if_neg hfin',
          lookupFS_insertFS, if_neg hfin']
        exact hfin
      · rw [if_pos rfl, lookupFS_insertFS, if_neg hfin']
        exact hfin
    · intro hcf
      subst hcf
      show lookupFS (cleanupTmp false (insertFS fs tmp content) tmp) tmp = none
      unfold cleanupTmp
      rw [lookupFS_insertFS, if_pos rfl]
      simp only [Option.isSome_some, if_pos]
      rw [if_neg Bool.false_ne_true, lookupFS_eraseFS, if_pos rfl]
  | renameFail =>
    refine ⟨rfl, ?_, ?_⟩
    · show lookupFS (cleanupTmp cleanupFails (insertFS fs tmp content) tmp) fin = none
      unfold cleanupTmp
      rw [lookupFS_insertFS, if_pos rfl]
      simp only [Option.isSome_some, if_pos]
      cases cleanupFails
      · rw [if_neg Bool.false_ne_true, lookupFS_eraseFS, if_neg hfin',
          lookupFS_insertFS, if_neg hfin']
        exact hfin
      · rw [if_pos rfl, lookupFS_insertFS, if_neg hfin']
        exact hfin
    · intro hcf
      subst hcf
      show lookupFS (cleanupTmp false (insertFS fs tmp content) tmp) tmp = none
      unfold cleanupTmp
      rw [lookupFS_insertFS, if_pos rfl]
      simp only [Option.isSome_some, if_pos]
      rw [if_neg Bool.false_ne_true, lookupFS_eraseFS, if_pos rfl]

/-- C5: for every failure injected at the temp-file write, fsync, or rename
step, both nodes' `write_message` leave zero files at the computed destination
path, delete the temp file whenever the best-effort unlink succeeds, and
surface the failure as the single opaque `FileStoreError` (also when the
cleanup unlink itself fails, so a cleanup failure never replaces the original
error). -/
theorem C5_write_failure_is_atomic_and_opaque
    (corp : FileStore) (low : LowFileStore) (m : Message) (lm : LowMessage)
    (fault : WriteFault) (cleanupFails : Bool) (written : String) (fs gs : FS)
    (hfault : fault ≠ .noFault)
    (hcorp : lookupFS fs (corp.get_final_path m.ID m.Project) = none)
    (hlow : lookupFS gs (low.get_final_path lm.ID lm.Date) = none) :
    ((corp.write_message fault cleanupFails written m fs).1 =
        .error (.fileStoreError ("Failed to write message file: " ++ faultMsg fault)) ∧
      lookupFS (corp.write_message fault cleanupFails written m fs).2
        (corp.get_final_path m.ID m.Project) = none ∧
      (cleanupFails = false →
        lookupFS (corp.write_message fault cleanupFails written m fs).2
          (corp.get_tmp_path m.ID) = none)) ∧
    ((low.write_message fault cleanupFails written lm gs).1 =
        .error (.fileStoreError ("Failed to write message file: " ++ faultMsg fault)) ∧
      lookupFS (low.write_message fault cleanupFails written lm gs).2
        (low.get_final_path lm.ID lm.Date) = none ∧
      (cleanupFails = false →
        lookupFS (low.write_message fault cleanupFails written lm gs).2
          (low.get_tmp_path lm.ID) = none)) := by
  constructor
  · exact atomic_write_fault fault cleanupFails written _ _ _ fs hfault
      (corp_tmp_ne_final corp m.ID m.Project) hcorp
  · exact atomic_write_fault fault cleanupFails written _ _ _ gs hfault
      (low_tmp_ne_final low lm.ID lm.Date) hlow

/-- Witness for C5: a rename failure on empty filesystems, at concrete
messages, for both node variants. -/
theorem C5_write_failure_is_atomic_and_opaque_witness :
    ((FileStore.write_message ⟨["data", "messages"], ["data", "tmp"]⟩ .renameFail false "x"
        ⟨"c1f2aaaa-0000-4000-8000-000000000000", "AAA", "TID1",
          "2026-01-30T11:22:33", "ok", []⟩ []).1 =
      .error (.fileStoreError ("Failed to write message file: " ++ faultMsg .renameFail)) ∧
      lookupFS (FileStore.write_message ⟨["data", "messages"], ["data", "tmp"]⟩ .renameFail false "x"
        ⟨"c1f2aaaa-0000-4000-8000-000000000000", "AAA", "TID1",
          "2026-01-30T11:22:33", "ok", []⟩ []).2
        (FileStore.get_final_path ⟨["data", "messages"], ["data", "tmp"]⟩
          "c1f2aaaa-0000-4000-8000-000000000000" "AAA") = none ∧
      (false = false →
        lookupFS (FileStore.write_message ⟨["data", "messages"], ["data", "tmp"]⟩ .renameFail false "x"
          ⟨"c1f2aaaa-0000-4000-8000-000000000000", "AAA", "TID1",
            "2026-01-30T11:22:33", "ok", []⟩ []).2
          (FileStore.get_tmp_path ⟨["data", "messages"], ["data", "tmp"]⟩
            "c1f2aaaa-0000-4000-8000-000000000000") = none)) ∧
    ((LowFileStore.write_message ⟨["data"]⟩ .renameFail false "x"
        ⟨"c1f2aaaa-0000-4000-8000-000000000000", "30012026T11:22:33", []⟩ []).1 =
      .error (.fileStoreError ("Failed to write message file: " ++ faultMsg .renameFail)) ∧
      lookupFS (LowFileStore.write_message ⟨["data"]⟩ .renameFail false "x"
        ⟨"c1f2aaaa-0000-4000-8000-000000000000", "30012026T11:22:33", []⟩ []).2
        (LowFileStore.get_final_path ⟨["data"]⟩
          "c1f2aaaa-0000-4000-8000-000000000000" "30012026T11:22:33") = none ∧
      (false = false →
        lookupFS (LowFileStore.write_message ⟨["data"]⟩ .renameFail false "x"
          ⟨"c1f2aaaa-0000-4000-8000-000000000000", "30012026T11:22:33", []⟩ []).2
          (LowFileStore.get_tmp_path ⟨["data"]⟩
            "c1f2aaaa-0000-4000-8000-000000000000") = none)) :=
  C5_write_failure_is_atomic_and_opaque _ _ _ _ _ _ _ _ _
    (by intro h; cases h) rfl rfl

/-- C6 counterexample: two schema-valid messages with equal id but different
project codes are stored at different destination paths on the corporate node
— the destination path is not a function of the id alone. -/
theorem C6_counterexample_same_id_different_path :
    Message.validate
        ⟨"c1f2aaaa-0000-4000-8000-000000000000", "AAA", "TID1",
          "2026-01-30T11:22:33", "ok", []⟩ =
      some ⟨"c1f2aaaa-0000-4000-8000-000000000000", "AAA", "TID1",
        "2026-01-30T11:22:33", "ok", []⟩ ∧
    Message.validate
        ⟨"c1f2aaaa-0000-4000-8000-000000000000", "BBB", "TID1",
          "2026-01-30T11:22:33", "ok", []⟩ =
      some ⟨"c1f2aaaa-0000-4000-8000-000000000000", "BBB", "TID1",
        "2026-01-30T11:22:33", "ok", []⟩ ∧
    FileStore.get_final_path ⟨["data", "messages"], ["data", "tmp"]⟩
        "c1f2aaaa-0000-4000-8000-000000000000" "AAA" ≠
      FileStore.get_final_path ⟨["data", "messages"], ["data", "tmp"]⟩
        "c1f2aaaa-0000-4000-8000-000000000000" "BBB" := by
  exact ⟨rfl, rfl, by decide⟩

/-- C6 (amended): the corporate destination path is a pure function of the
message id AND project code; persisting two messages agreeing on both leaves
exactly one record, at that deterministic path, whose content is the most
recent write — the temp file is gone and every other path is untouched. -/
theorem C6_same_id_same_project_idempotent_overwrite
    (s : FileStore) (m1 m2 : Message) (fs : FS)
    (hid : m1.ID = m2.ID) (hproj : m1.Project = m2.Project) :
    s.get_final_path m1.ID m1.Project = s.get_final_path m2.ID m2.Project ∧
    lookupFS (s.write_message .noFault false ""
        m2 (s.write_message .noFault false "" m1 fs).2).2
      (s.get_final_path m2.ID m2.Project) = some (serializeMessage m2) ∧
    lookupFS (s.write_message .noFault false ""
        m2 (s.write_message .noFault false "" m1 fs).2).2
      (s.get_tmp_path m2.ID) = none ∧
    ∀ p, p ≠ s.get_final_path m2.ID m2.Project → p ≠ s.get_tmp_path m2.ID →
      lookupFS (s.write_message .noFault false ""
          m2 (s.write_message .noFault false "" m1 fs).2).2 p = lookupFS fs p := by
  have hfin : s.get_final_path m1.ID m1.Project = s.get_final_path m2.ID m2.Project := by
    rw [hid, hproj]
  have htmp : s.get_tmp_path m1.ID = s.get_tmp_path m2.ID := by rw [hid]
  have hne : s.get_tmp_path m2.ID ≠ s.get_final_path m2.ID m2.Project :=
    corp_tmp_ne_final s m2.ID m2.Project
  have hne' : ¬ s.get_final_path m2.ID m2.Project = s.get_tmp_path m2.ID :=
    fun h => hne h.symm
  refine ⟨hfin, ?_, ?_, ?_⟩
  · show lookupFS (insertFS (eraseFS (insertFS _ _ _) _) _ _) _ = _
    rw [FileStore.write_message, atomic_write]
    rw [lookupFS_insertFS, if_pos rfl]
  · show lookupFS (insertFS (eraseFS (insertFS _ _ _) _) _ _) _ = _
    rw [FileStore.write_message, atomic_write]
    rw [lookupFS_insertFS, if_neg hne, lookupFS_eraseFS, if_pos rfl]
  · intro p hpfin hptmp
    simp only [FileStore.write_message, atomic_write]
    rw [lookupFS_insertFS, if_neg hpfin, lookupFS_eraseFS, if_neg hptmp,
      lookupFS_insertFS, if_neg hptmp, lookupFS_insertFS,
      if_neg (hfin ▸ hpfin), lookupFS_eraseFS, if_neg (htmp ▸ hptmp),
      lookupFS_insertFS, if_neg (htmp ▸ hptmp)]

/-- Witness for C6 (amended): writing the same concrete message twice onto an
empty filesystem. -/
theorem C6_same_id_same_project_idempotent_overwrite_witness :
    FileStore.get_final_path ⟨["d"], ["t"]⟩ "aaaaaaaa-0000-4000-8000-000000000000" "AAA" =
      FileStore.get_final_path ⟨["d"], ["t"]⟩ "aaaaaaaa-0000-4000-8000-000000000000" "AAA" ∧
    lookupFS (FileStore.write_message ⟨["d"], ["t"]⟩ .noFault false ""
        ⟨"aaaaaaaa-0000-4000-8000-000000000000", "AAA", "TID1", "2026-01-30T11:22:33", "ok", []⟩
        (FileStore.write_message ⟨["d"], ["t"]⟩ .noFault false ""
          ⟨"aaaaaaaa-0000-4000-8000-000000000000", "AAA", "TID1", "2026-01-30T11:22:33", "ok", []⟩
          []).2).2
      (FileStore.get_final_path ⟨["d"], ["t"]⟩ "aaaaaaaa-0000-4000-8000-000000000000" "AAA") =
      some (serializeMessage
        ⟨"aaaaaaaa-0000-4000-8000-000000000000", "AAA", "TID1", "2026-01-30T11:22:33", "ok", []⟩) ∧
    lookupFS (FileStore.write_message ⟨["d"], ["t"]⟩ .noFault false ""
        ⟨"aaaaaaaa-0000-4000-8000-000000000000", "AAA", "TID1", "2026-01-30T11:22:33", "ok", []⟩
        (FileStore.write_message ⟨["d"], ["t"]⟩ .noFault false ""
          ⟨"aaaaaaaa-0000-4000-8000-000000000000", "AAA", "TID1", "2026-01-30T11:22:33", "ok", []⟩
          []).2).2
      (FileStore.get_tmp_path ⟨["d"], ["t"]⟩ "aaaaaaaa-0000-4000-8000-000000000000") = none ∧
    ∀ p, p ≠ FileStore.get_final_path ⟨["d"], ["t"]⟩ "aaaaaaaa-0000-4000-8000-000000000000" "AAA" →
      p ≠ FileStore.get_tmp_path ⟨["d"], ["t"]⟩ "aaaaaaaa-0000-4000-8000-000000000000" →
      lookupFS (FileStore.write_message ⟨["d"], ["t"]⟩ .noFault false ""
          ⟨"aaaaaaaa-0000-4000-8000-000000000000", "AAA", "TID1", "2026-01-30T11:22:33", "ok", []⟩
          (FileStore.write_message ⟨["d"], ["t"]⟩ .noFault false ""
            ⟨"aaaaaaaa-0000-4000-8000-000000000000", "AAA", "TID1", "2026-01-30T11:22:33", "ok", []⟩
            []).2).2 p = lookupFS [] p :=
  C6_same_id_same_project_idempotent_overwrite ⟨["d"], ["t"]⟩
    ⟨"aaaaaaaa-0000-4000-8000-000000000000", "AAA", "TID1", "2026-01-30T11:22:33", "ok", []⟩
    ⟨"aaaaaaaa-0000-4000-8000-000000000000", "AAA", "TID1", "2026-01-30T11:22:33", "ok", []⟩
    [] rfl rfl

/-- C4: two consecutive server-error responses followed by a 2xx success make
`send_message` return success after exactly 3 attempts, with backoff delays
`[0.5, 1.0]` — the first delay is `INITIAL_BACKOFF = 0.5`, the second is
exactly double the first, and there are exactly `attempts - 1` delays, so no
delay follows the final attempt. -/
theorem C4_two_5xx_then_success_retries (outcomes : Nat → AttemptOutcome)
    (s0 s1 s2 : Nat)
    (h0 : outcomes 0 = .resp s0) (h1 : outcomes 1 = .resp s1)
    (h2 : outcomes 2 = .resp s2)
    (hs0 : 500 ≤ s0 ∧ s0 ≤ 599) (hs1 : 500 ≤ s1 ∧ s1 ≤ 599)
    (hs2 : 200 ≤ s2 ∧ s2 ≤ 299) :
    GatewayClient.send_message outcomes =
      (.ok, 3, [INITIAL_BACKOFF, 2 * INITIAL_BACKOFF]) ∧
    (GatewayClient.send_message outcomes).2.2.length =
      (GatewayClient.send_message outcomes).2.1 - 1 := by
  have e : GatewayClient.send_message outcomes =
      (.ok, 3, [INITIAL_BACKOFF, 2 * INITIAL_BACKOFF]) := by
    show send_message_from outcomes 0 (2 + 1) = _
    rw [send_message_from, h0]
    dsimp only
    rw [if_pos hs0.1, if_pos (by decide : 0 < MAX_RETRIES)]
    rw [show send_message_from outcomes (0 + 1) 2 =
      send_message_from outcomes 1 (1 + 1) from rfl]
    rw [send_message_from, h1]
    dsimp only
    rw [if_pos hs1.1, if_pos (by decide : 1 < MAX_RETRIES)]
    rw [show send_message_from outcomes (1 + 1) 1 =
      send_message_from outcomes 2 (0 + 1) from rfl]
    rw [send_message_from, h2]
    dsimp only
    rw [if_neg (by omega : ¬ 500 ≤ s2), if_neg (by omega : ¬ 400 ≤ s2)]
    norm_num [INITIAL_BACKOFF]
  refine ⟨e, ?_⟩
  rw [e]
  rfl

/-- Witness for C4 with statuses 500, 503, 200. -/
theorem C4_two_5xx_then_success_retries_witness :
    GatewayClient.send_message
        (fun n => if n = 0 then .resp 500 else if n = 1 then .resp 503 else .resp 200) =
      (.ok, 3, [INITIAL_BACKOFF, 2 * INITIAL_BACKOFF]) ∧
    (GatewayClient.send_message
        (fun n => if n = 0 then .resp 500 else if n = 1 then .resp 503 else .resp 200)).2.2.length =
      (GatewayClient.send_message
        (fun n => if n = 0 then .resp 500 else if n = 1 then .resp 503 else .resp 200)).2.1 - 1 :=
  C4_two_5xx_then_success_retries _ 500 503 200 rfl rfl rfl
    (by decide) (by decide) (by decide)

/-- C3: a schema-valid message whose project is absent from the whitelist, or
present but disabled, is rejected by both pipelines with the 400 error
response, and neither the store nor the gateway client observes a call. -/
theorem C3_whitelist_rejection_before_side_effects
    (wl : Projects) (rid : String) (raw : RawMessage) (m : Message)
    (gw : SendResult) (st : Except StoreExc Path)
    (hv : Message.validate raw = some m)
    (hwl : wl.lookup m.Project = none ∨ wl.lookup m.Project = some ⟨some false⟩) :
    send_message_endpoint wl rid raw gw = (ErrorResponse 400 rid, []) ∧
    receive_message_endpoint wl rid raw st = (ErrorResponse 400 rid, []) := by
  have hall : check_project_whitelist wl m.Project = false := by
    unfold check_project_whitelist is_project_allowed
    rcases hwl with h | h <;> simp [h]
  constructor
  · unfold send_message_endpoint
    rw [hv]
    dsimp only
    rw [hall]
    rfl
  · unfold receive_message_endpoint
    rw [if_pos (show verify_gateway_origin = true from rfl)]
    rw [hv]
    dsimp only
    rw [hall]
    rfl

/-- Witness for C3: a valid message for the absent project `"AAA"` against a
whitelist containing only `"BBB"`, and for the disabled project `"CCC"`. -/
theorem C3_whitelist_rejection_before_side_effects_witness :
    (send_message_endpoint [("BBB", ⟨some true⟩), ("CCC", ⟨some false⟩)] "r1"
        ⟨"c1f2aaaa-0000-4000-8000-000000000000", "AAA", "TID1",
          "2026-01-30T11:22:33", "ok", []⟩ .ok =
      (ErrorResponse 400 "r1", []) ∧
    receive_message_endpoint [("BBB", ⟨some true⟩), ("CCC", ⟨some false⟩)] "r1"
        ⟨"c1f2aaaa-0000-4000-8000-000000000000", "AAA", "TID1",
          "2026-01-30T11:22:33", "ok", []⟩ (.ok []) =
      (ErrorResponse 400 "r1", [])) ∧
    (send_message_endpoint [("BBB", ⟨some true⟩), ("CCC", ⟨some false⟩)] "r1"
        ⟨"c1f2aaaa-0000-4000-8000-000000000000", "CCC", "TID1",
          "2026-01-30T11:22:33", "ok", []⟩ .ok =
      (ErrorResponse 400 "r1", []) ∧
    receive_message_endpoint [("BBB", ⟨some true⟩), ("CCC", ⟨some false⟩)] "r1"
        ⟨"c1f2aaaa-0000-4000-8000-000000000000", "CCC", "TID1",
          "2026-01-30T11:22:33", "ok", []⟩ (.ok []) =
      (ErrorResponse 400 "r1", [])) :=
  ⟨C3_whitelist_rejection_before_side_effects _ "r1" _
      ⟨"c1f2aaaa-0000-4000-8000-000000000000", "AAA", "TID1",
        "2026-01-30T11:22:33", "ok", []⟩ .ok (.ok []) rfl (Or.inl rfl),
   C3_whitelist_rejection_before_side_effects _ "r1" _
      ⟨"c1f2aaaa-0000-4000-8000-000000000000", "CCC", "TID1",
        "2026-01-30T11:22:33", "ok", []⟩ .ok (.ok []) rfl (Or.inr rfl)⟩

/-- C8: the five internal error kinds collapse to exactly two HTTP outcome
classes — `SchemaRejection`, `WhitelistRejection` and `GatewayRejected` map to
the client-class status 400, `GatewayUnavailable` to 503 and `StoreFailure` to
500 (server class) — and every error response of either endpoint carries the
single fixed string `"Invalid request"` and the request's correlation
identifier as `request_id`. -/
theorem C8_error_taxonomy_two_outcome_classes
    (wl : Projects) (rid : String) (raw : RawMessage) (gw : SendResult)
    (st : Except StoreExc Path) (s : Nat) (e : StoreExc) :
    (Message.validate raw = none →
      send_message_endpoint wl rid raw gw = (ErrorResponse 400 rid, []) ∧
      receive_message_endpoint wl rid raw st = (ErrorResponse 400 rid, [])) ∧
    (∀ m, Message.validate raw = some m →
      check_project_whitelist wl m.Project = false →
      send_message_endpoint wl rid raw gw = (ErrorResponse 400 rid, []) ∧
      receive_message_endpoint wl rid raw st = (ErrorResponse 400 rid, [])) ∧
    (∀ m, Message.validate raw = some m →
      check_project_whitelist wl m.Project = true → gw = .rejected s →
      send_message_endpoint wl rid raw gw = (ErrorResponse 400 rid, [.gatewaySend])) ∧
    (∀ m, Message.validate raw = some m →
      check_project_whitelist wl m.Project = true → gw = .unavailable →
      send_message_endpoint wl rid raw gw = (ErrorResponse 503 rid, [.gatewaySend])) ∧
    (∀ m, Message.validate raw = some m →
      check_project_whitelist wl m.Project = true → st = .error e →
      receive_message_endpoint wl rid raw st = (ErrorResponse 500 rid, [.storeWrite])) ∧
    ((send_message_endpoint wl rid raw gw).1.success = false →
      (send_message_endpoint wl rid raw gw).1.error = some "Invalid request" ∧
      (send_message_endpoint wl rid raw gw).1.request_id = rid ∧
      ((400 ≤ (send_message_endpoint wl rid raw gw).1.status ∧
          (send_message_endpoint wl rid raw gw).1.status < 500) ∨
        (500 ≤ (send_message_endpoint wl rid raw gw).1.status ∧
          (send_message_endpoint wl rid raw gw).1.status < 600))) ∧
    ((receive_message_endpoint wl rid raw st).1.success = false →
      (receive_message_endpoint wl rid raw st).1.error = some "Invalid request" ∧
      (receive_message_endpoint wl rid raw st).1.request_id = rid ∧
      ((400 ≤ (receive_message_endpoint wl rid raw st).1.status ∧
          (receive_message_endpoint wl rid raw st).1.status < 500) ∨
        (500 ≤ (receive_message_endpoint wl rid raw st).1.status ∧
          (receive_message_endpoint wl rid raw st).1.status < 600))) := by
  refine ⟨?_, ?_, ?_, ?_, ?_, ?_, ?_⟩
  · intro hv
    constructor
    · unfold send_message_endpoint
      rw [hv]
    · unfold receive_message_endpoint
      rw [if_pos (show verify_gateway_origin = true from rfl), hv]
  · intro m hv hall
    constructor
    · unfold send_message_endpoint
      rw [hv]
      dsimp only
      rw [hall]
      rfl
    · unfold receive_message_endpoint
      rw [if_pos (show verify_gateway_origin = true from rfl), hv]
      dsimp only
      rw [hall]
      rfl
  · intro m hv hall hgw
    unfold send_message_endpoint
    rw [hv]
    dsimp only
    rw [hall, hgw]
    rfl
  · intro m hv hall hgw
    unfold send_message_endpoint
    rw [hv]
    dsimp only
    rw [hall, hgw]
    rfl
  · intro m hv hall hst
    unfold receive_message_endpoint
    rw [if_pos (show verify_gateway_origin = true from rfl), hv]
    dsimp only
    rw [hall, hst]
    rfl
  · unfold send_message_endpoint
    cases hv : Message.validate raw with
    | none =>
      dsimp only [ErrorResponse]
      intro _
      exact ⟨rfl, rfl, Or.inl (by omega)⟩
    | some m =>
      dsimp only
      cases hall : check_project_whitelist wl m.Project with
      | false =>
        rw [if_neg Bool.false_ne_true]
        dsimp only [ErrorResponse]
        intro _
        exact ⟨rfl, rfl, Or.inl (by omega)⟩
      | true =>
        rw [if_pos rfl]
        cases gw with
        | ok =>
          dsimp only [SuccessResponse]
          intro hfalse
          exact absurd hfalse (by simp)
        | rejected s' =>
          dsimp only [ErrorResponse]
          intro _
          exact ⟨rfl, rfl, Or.inl (by omega)⟩
        | unavailable =>
          dsimp only [ErrorResponse]
          intro _
          exact ⟨rfl, rfl, Or.inr (by omega)⟩
  · unfold receive_message_endpoint
    rw [if_pos (show verify_gateway_origin = true from rfl)]
    cases hv : Message.validate raw with
    | none =>
      dsimp only [ErrorResponse]
      intro _
      exact ⟨rfl, rfl, Or.inl (by omega)⟩
    | some m =>
      dsimp only
      cases hall : check_project_whitelist wl m.Project with
      | false =>
        rw [if_neg Bool.false_ne_true]
        dsimp only [ErrorResponse]
        intro _
        exact ⟨rfl, rfl, Or.inl (by omega)⟩
      | true =>
        rw [if_pos rfl]
        cases st with
        | ok p =>
          dsimp only [SuccessResponse]
          intro hfalse
          exact absurd hfalse (by simp)
        | error e' =>
          dsimp only [ErrorResponse]
          intro _
          exact ⟨rfl, rfl, Or.inr (by omega)⟩

/-- Witness for C8: the schema-rejection case at a concrete malformed payload
(`ID` not a UUID), and the store-failure case at a concrete valid payload. -/
theorem C8_error_taxonomy_two_outcome_classes_witness :
    (send_message_endpoint [("AAA", ⟨some true⟩)] "r1"
        ⟨"not-a-uuid", "AAA", "TID1", "2026-01-30T11:22:33", "ok", []⟩ .ok =
      (ErrorResponse 400 "r1", []) ∧
    receive_message_endpoint [("AAA", ⟨some true⟩)] "r1"
        ⟨"not-a-uuid", "AAA", "TID1", "2026-01-30T11:22:33", "ok", []⟩
        (.error (.fileStoreError "boom")) =
      (ErrorResponse 400 "r1", [])) ∧
    receive_message_endpoint [("AAA", ⟨some true⟩)] "r1"
        ⟨"c1f2aaaa-0000-4000-8000-000000000000", "AAA", "TID1",
          "2026-01-30T11:22:33", "ok", []⟩
        (.error (.fileStoreError "boom")) =
      (ErrorResponse 500 "r1", [.storeWrite]) :=
  ⟨(C8_error_taxonomy_two_outcome_classes [("AAA", ⟨some true⟩)] "r1"
      ⟨"not-a-uuid", "AAA", "TID1", "2026-01-30T11:22:33", "ok", []⟩ .ok
      (.error (.fileStoreError "boom")) 0 (.fileStoreError "boom")).1 rfl,
   ((C8_error_taxonomy_two_outcome_classes [("AAA", ⟨some true⟩)] "r1"
      ⟨"c1f2aaaa-0000-4000-8000-000000000000", "AAA", "TID1",
        "2026-01-30T11:22:33", "ok", []⟩ .ok
      (.error (.fileStoreError "boom")) 0 (.fileStoreError "boom")).2.2.2.2.1
      ⟨"c1f2aaaa-0000-4000-8000-000000000000", "AAA", "TID1",
        "2026-01-30T11:22:33", "ok", []⟩ rfl rfl rfl)⟩

theorem lookup_cons_ne {β : Type} (k : Nat) (v : β) (l : List (Nat × β))
    (r : Nat) (h : r ≠ k) : ((k, v) :: l).lookup r = l.lookup r := by
  rw [List.lookup]
  have hb : (r == k) = false := beq_eq_false_iff_ne.mpr h
  rw [hb]

theorem lookup_updateHeap_self (h : List (Nat × ProjEntry)) (r : Nat)
    (e e' : ProjEntry) (hh : h.lookup r = some e) :
    (updateHeap h r e').lookup r = some e' := by
  induction h with
  | nil => simp [List.lookup] at hh
  | cons q t ih =>
    obtain ⟨k, v⟩ := q
    by_cases hk : r = k
    · subst hk
      rw [updateHeap, if_pos rfl, List.lookup]
      simp
    · have hbk : (r == k) = false := beq_eq_false_iff_ne.mpr hk
      rw [List.lookup, hbk] at hh
      rw [updateHeap]
      by_cases hkr : k = r
      · exact absurd hkr.symm hk
      · rw [if_neg hkr, List.lookup, hbk]
        exact ih hh

theorem lookup_updateHeap_ne (h : List (Nat × ProjEntry)) (r r' : Nat)
    (e' : ProjEntry) (hne : r' ≠ r) :
    (updateHeap h r e').lookup r' = h.lookup r' := by
  induction h with
  | nil => rfl
  | cons q t ih =>
    obtain ⟨k, v⟩ := q
    rw [updateHeap]
    by_cases hk : k = r
    · rw [if_pos hk]
      have hb : (r' == k) = false :=
        beq_eq_false_iff_ne.mpr (fun hh => hne (hh.trans hk))
      rw [List.lookup, List.lookup, hb]
      exact ih
    · rw [if_neg hk, List.lookup, List.lookup]
      by_cases hrk : (r' == k) = true
      · rw [hrk]
      · rw [Bool.not_eq_true] at hrk
        rw [hrk]
        exact ih

theorem get_projects_eq_self (s : WLState) (hmt : s.fileMtime = s.lastMtime) :
    get_projects s = s := by
  unfold get_projects
  rw [if_neg (not_not_intro hmt)]

/-- What a read observes on a state with no pending external file edit. -/
theorem is_project_allowed_st_read (s : WLState) (c : String)
    (hmt : s.fileMtime = s.lastMtime) :
    (is_project_allowed_st s c).1 =
      (match List.lookup c s.cacheRefs with
       | none => false
       | some r =>
         match List.lookup r s.heap with
         | none => false
         | some project => project.enabledKey.getD false) := by
  unfold is_project_allowed_st
  rw [get_projects_eq_self s hmt]
  dsimp only
  cases List.lookup c s.cacheRefs with
  | none => rfl
  | some r =>
    dsimp only
    cases List.lookup r s.heap <;> rfl

/-- C7 counterexample: `enable_project` on a whitelist whose backing-file
write fails raises, yet the in-memory cache has already been mutated — a
subsequent read reports the project enabled even though the operation failed
(the shallow `.copy()` shares entry objects between the copy and the cache),
contradicting "state unchanged on error". -/
theorem C7_counterexample_enable_mutates_cache_on_write_failure :
    (enable_project_st true
        ⟨[(0, ⟨some false⟩)], [("AAA", 0)], [("AAA", ⟨some false⟩)], 5, 5, 1⟩ "AAA").1 =
      .error .writeFailed ∧
    (is_project_allowed_st
        ⟨[(0, ⟨some false⟩)], [("AAA", 0)], [("AAA", ⟨some false⟩)], 5, 5, 1⟩ "AAA").1 =
      false ∧
    (is_project_allowed_st
        (enable_project_st true
          ⟨[(0, ⟨some false⟩)], [("AAA", 0)], [("AAA", ⟨some false⟩)], 5, 5, 1⟩ "AAA").2
        "AAA").1 = true :=
  ⟨rfl, rfl, rfl⟩

/-- C7 (amended): every mutating whitelist operation serializes the entire
map and atomically renames it into place, and raises on a write failure with
the backing file unchanged.  `add` and `remove` operate on a copy of the
top-level map, so on a write failure the map a subsequent read observes is
unchanged; but `enable`/`disable` copy only the top-level map and mutate the
shared entry object before writing, so on a write failure a subsequent read
already observes the new enabled flag. -/
theorem C7_mutations_on_write_failure
    (s : WLState) (code : String) (r : Nat) (e : ProjEntry) (en : Bool)
    (hmt : s.fileMtime = s.lastMtime)
    (hfresh : ∀ p ∈ s.cacheRefs, p.2 < s.nextRef) :
    (s.cacheRefs.lookup code = none →
      (add_project_st true s code en).1 = .error .writeFailed ∧
      (add_project_st true s code en).2.fileProjects = s.fileProjects ∧
      ∀ c, (is_project_allowed_st (add_project_st true s code en).2 c).1 =
        (is_project_allowed_st s c).1) ∧
    (s.cacheRefs.lookup code = some r →
      (remove_project_st true s code).1 = .error .writeFailed ∧
      (remove_project_st true s code).2 = s) ∧
    (s.cacheRefs.lookup code = some r → s.heap.lookup r = some e →
      (enable_project_st true s code).1 = .error .writeFailed ∧
      (enable_project_st true s code).2.fileProjects = s.fileProjects ∧
      (is_project_allowed_st (enable_project_st true s code).2 code).1 = true) ∧
    (s.cacheRefs.lookup code = some r → s.heap.lookup r = some e →
      (disable_project_st true s code).1 = .error .writeFailed ∧
      (disable_project_st true s code).2.fileProjects = s.fileProjects ∧
      (is_project_allowed_st (disable_project_st true s code).2 code).1 = false) ∧
    (s.cacheRefs.lookup code = some r →
      (enable_project_st false s code).2.fileProjects =
        derefProjects (enable_project_st false s code).2.heap
          (enable_project_st false s code).2.cacheRefs ∧
      (enable_project_st false s code).2.lastMtime =
        (enable_project_st false s code).2.fileMtime) := by
  have hg : get_projects s = s := get_projects_eq_self s hmt
  refine ⟨?_, ?_, ?_, ?_, ?_⟩
  · intro hnone
    unfold add_project_st
    rw [hg]
    dsimp only
    rw [hnone]
    dsimp only [save_projects]
    rw [if_pos rfl]
    refine ⟨rfl, rfl, ?_⟩
    intro c
    rw [is_project_allowed_st_read, is_project_allowed_st_read]
    · dsimp only
      cases hc : List.lookup c s.cacheRefs with
      | none => rfl
      | some r' =>
        dsimp only
        have hlt : r' < s.nextRef := hfresh (c, r') (lookup_mem hc)
        rw [lookup_cons_ne _ _ _ _ (Nat.ne_of_lt hlt)]
    · exact hmt
    · exact hmt
  · intro hsome
    unfold remove_project_st
    rw [hg]
    dsimp only
    rw [hsome]
    dsimp only [save_projects]
    rw [if_pos rfl]
    exact ⟨rfl, rfl⟩
  · intro hsome hheap
    unfold enable_project_st
    rw [hg]
    dsimp only
    rw [hsome]
    dsimp only [save_projects]
    rw [if_pos rfl]
    refine ⟨rfl, rfl, ?_⟩
    rw [is_project_allowed_st_read]
    · dsimp only
      rw [hsome]
      dsimp only
      rw [lookup_updateHeap_self s.heap r e ⟨some true⟩ hheap]
      rfl
    · exact hmt
  · intro hsome hheap
    unfold disable_project_st
    rw [hg]
    dsimp only
    rw [hsome]
    dsimp only [save_projects]
    rw [if_pos rfl]
    refine ⟨rfl, rfl, ?_⟩
    rw [is_project_allowed_st_read]
    · dsimp only
      rw [hsome]
      dsimp only
      rw [lookup_updateHeap_self s.heap r e ⟨some false⟩ hheap]
      rfl
    · exact hmt
  · intro hsome
    unfold enable_project_st
    rw [hg]
    dsimp only
    rw [hsome]
    dsimp only [save_projects]
    rw [if_neg Bool.false_ne_true]
    exact ⟨rfl, rfl⟩

/-- Witness for C7 (amended) on a concrete one-project whitelist state:
a failing `add` of the absent `"BBB"` leaves reads unchanged, while a failing
`enable` of the present `"AAA"` already flips what reads observe. -/
theorem C7_mutations_on_write_failure_witness :
    ((add_project_st true
        ⟨[(0, ⟨some false⟩)], [("AAA", 0)], [("AAA", ⟨some false⟩)], 5, 5, 1⟩ "BBB" true).1 =
      .error .writeFailed ∧
      (add_project_st true
        ⟨[(0, ⟨some false⟩)], [("AAA", 0)], [("AAA", ⟨some false⟩)], 5, 5, 1⟩ "BBB" true).2.fileProjects =
        (⟨[(0, ⟨some false⟩)], [("AAA", 0)], [("AAA", ⟨some false⟩)], 5, 5, 1⟩ : WLState).fileProjects ∧
      ∀ c, (is_project_allowed_st (add_project_st true
          ⟨[(0, ⟨some false⟩)], [("AAA", 0)], [("AAA", ⟨some false⟩)], 5, 5, 1⟩ "BBB" true).2 c).1 =
        (is_project_allowed_st
          ⟨[(0, ⟨some false⟩)], [("AAA", 0)], [("AAA", ⟨some false⟩)], 5, 5, 1⟩ c).1) ∧
    ((enable_project_st true
        ⟨[(0, ⟨some false⟩)], [("AAA", 0)], [("AAA", ⟨some false⟩)], 5, 5, 1⟩ "AAA").1 =
      .error .writeFailed ∧
      (enable_project_st true
        ⟨[(0, ⟨some false⟩)], [("AAA", 0)], [("AAA", ⟨some false⟩)], 5, 5, 1⟩ "AAA").2.fileProjects =
        (⟨[(0, ⟨some false⟩)], [("AAA", 0)], [("AAA", ⟨some false⟩)], 5, 5, 1⟩ : WLState).fileProjects ∧
      (is_project_allowed_st (enable_project_st true
          ⟨[(0, ⟨some false⟩)], [("AAA", 0)], [("AAA", ⟨some false⟩)], 5, 5, 1⟩ "AAA").2 "AAA").1 =
        true) :=
  ⟨(C7_mutations_on_write_failure
      ⟨[(0, ⟨some false⟩)], [("AAA", 0)], [("AAA", ⟨some false⟩)], 5, 5, 1⟩
      "BBB" 0 ⟨some false⟩ true rfl (by decide)).1 rfl,
   ((C7_mutations_on_write_failure
      ⟨[(0, ⟨some false⟩)], [("AAA", 0)], [("AAA", ⟨some false⟩)], 5, 5, 1⟩
      "AAA" 0 ⟨some false⟩ true rfl (by decide)).2.2.1 rfl rfl)⟩

/-- C1: running the corporate node's startup sequence raises — `lifespan`
calls `FileStore(data_dir=DATA_DIR)` but the corporate `FileStore.__init__`
accepts only `master_dir`/`tmp_dir`, a `TypeError`; and were the store
constructed, the startup log line reads `whitelist.db_path`, an attribute
`ProjectWhitelist` does not define (`AttributeError`).  The claim that every
constructor call and attribute access in startup is well-defined is violated
by the code. -/
theorem C1_startup_raises :
    lifespan_startup =
      .error (.typeError "FileStore init got an unexpected keyword argument data_dir") ∧
    ¬ ("data_dir" ∈ FileStore.initKeywords) ∧
    ¬ ("db_path" ∈ ProjectWhitelist.attributeNames) := by
  refine ⟨rfl, by decide, by decide⟩

/-- C9 counterexample: the corporate validator accepts the bare date
`"2026-01-30"`, a string that is not in the node's expected literal
`YYYY-MM-DDThh:mm:ss` format — so acceptance is not restricted to the exact
expected format. -/
theorem C9_counterexample_accepts_bare_date :
    validate_timestamp "2026-01-30" = some "2026-01-30" ∧
      exact_iso_datetime_format "2026-01-30" = false := by
  exact ⟨rfl, rfl⟩

/-- C9 (amended): the corporate validator delegates to
`datetime.fromisoformat`, so it rejects (never coerces) every value in the
other node's `ddMMyyyyThh:mm:ss` format with a `20xx` year, and it accepts the
expected `YYYY-MM-DDThh:mm:ss` format — but it does not enforce that format
exactly: a bare ISO date is also accepted. -/
theorem C9_timestamp_validation (d1 d2 M1 M2 y1 y2 h1 h2 n1 n2 s1 s2 : Char) :
    validate_timestamp
        (String.mk [d1, d2, M1, M2, '2', '0', y1, y2, 'T', h1, h2, ':', n1, n2, ':', s1, s2]) =
      none ∧
    validate_timestamp "2026-01-30T11:22:33" = some "2026-01-30T11:22:33" ∧
    validate_timestamp "2026-01-30" = some "2026-01-30" := by
  refine ⟨rfl, rfl, rfl⟩

end CorporateApi
